import Mathlib

/-!
Verification of the "From JD to Resume" wizard controller.

The repository is a single-page React application present in two variants:
`src/index.tsx` and the unnamed file `src/unnamed/part_000`.  Both render one
`App` component holding the session state (`step`, `rawText`, `interimText`
(unnamed variant only), `isRecording`, `experienceDoc`, `jd`, `analysis`,
`resumeDraft`, `critiques`, `finalResume`) and four asynchronous handlers
that each issue one call to the external generation service
(`handleProcessBrainstorm`, `handleFitCheck`, `handleGenerateDraft`,
`handleFinalPolish`), plus speech-recognition callbacks and a restart button.

The embedding below models one completed invocation of each handler as a pure
function from the pre-call state and the outcome of the external call to the
post-call state, together with two observables: whether a generation call was
issued and whether a blocking `alert(...)` was raised.  The `loading` flag is
set to `true` before the call and reset in the `finally` block, so it is
`false` before and after every completed invocation and is omitted from the
state.  JSON values returned by the service are modelled by an inductive
`Json` type; `JSON.parse` of the response text is modelled by the
`StructuredResponse` environment input (`parseFailure` = `JSON.parse` threw,
`parsed j` = the text parsed to `j`), since the TypeScript code stores the
parsed object without any client-side validation.
-/

/-- JSON values, as produced by `JSON.parse` on the response text.  Numbers
are modelled by `Rat` (JavaScript numbers restricted to the rationals;
the scores involved in the claims are plain decimal literals). -/
inductive Json where
  | jnull
  | jbool (b : Bool)
  | jnum (q : Rat)
  | jstr (s : String)
  | jarr (elems : List Json)
  | jobj (members : List (String × Json))

/-- JavaScript property access `j[k]` on a parsed value: a member lookup on
an object, `undefined` (here `none`) on anything else or a missing key. -/
def lookupField : Json → String → Option Json
  | .jobj ms, k => ms.lookup k
  | _, _ => none

/-- Embedding of JavaScript `String.prototype.trim` as used in the guards
`if (!rawText.trim())` and `if (!jd.trim())`: drop whitespace characters from
both ends of the character sequence. -/
def trimChars (l : List Char) : List Char :=
  ((l.dropWhile Char.isWhitespace).reverse.dropWhile Char.isWhitespace).reverse

/-- JavaScript `trim` on a string value; the guard `if (!s.trim())` holds
exactly when this is the empty string. -/
def jsTrim (s : String) : String := ⟨trimChars s.data⟩

/-- The `App` component's session state (`useState` hooks of both variants;
`interimText` exists only in `src/unnamed/part_000`).  In the TypeScript,
`resumeDraft` and `critiques` receive unvalidated properties of a parsed JSON
object in `handleGenerateDraft` and may therefore hold `undefined` (`none`);
their initial values are the string `''` and the array `[]`. -/
structure AppState where
  step : Nat
  rawText : String
  interimText : String
  isRecording : Bool
  experienceDoc : String
  jd : String
  analysis : Option Json
  resumeDraft : Option Json
  critiques : Option Json
  finalResume : String

/-- Initial hook values: `useState(0)`, `useState('')`, etc. -/
def initialState : AppState :=
  { step := 0, rawText := "", interimText := "", isRecording := false,
    experienceDoc := "", jd := "", analysis := none,
    resumeDraft := some (.jstr ""), critiques := some (.jarr []),
    finalResume := "" }

/-- Outcome of one completed handler invocation: the post-call state, whether
a generation call was issued, and whether a blocking `alert(...)` was shown. -/
structure Outcome where
  state : AppState
  called : Bool
  alerted : Bool

/-- Environment input for the two handlers that use the response text
directly (`handleProcessBrainstorm`, `handleFinalPolish`): either the
`generateContent` call threw, or it returned `response.text || ''`. -/
inductive TextResponse where
  | failure
  | success (text : String)

/-- Environment input for the two handlers that run `JSON.parse` on the
response (`handleFitCheck`, `handleGenerateDraft`): the call threw, or
`JSON.parse(response.text || '{}')` threw, or it produced a JSON value. -/
inductive StructuredResponse where
  | callFailure
  | parseFailure
  | parsed (j : Json)

/-- `handleProcessBrainstorm` (both variants): guard `if (!rawText.trim())
return;`, then one generation call; on success `setExperienceDoc(response.text
|| ''); setStep(1);`, on any caught error `console.error(e); alert('AI
processing failed. Please try again.');`. -/
def handleProcessBrainstorm (s : AppState) (r : TextResponse) : Outcome :=
  if jsTrim s.rawText = "" then ⟨s, false, false⟩
  else
    match r with
    | .failure => ⟨s, true, true⟩
    | .success doc => ⟨{ s with experienceDoc := doc, step := 1 }, true, false⟩

/-- `handleFitCheck` (both variants): guard `if (!jd.trim()) return;`, then one
generation call; on success `setAnalysis(JSON.parse(response.text || '{}'));
setStep(2);` with no validation of the parsed object, and on any caught error
(network failure, or `JSON.parse` throwing) `alert('Analysis failed.');`. -/
def handleFitCheck (s : AppState) (r : StructuredResponse) : Outcome :=
  if jsTrim s.jd = "" then ⟨s, false, false⟩
  else
    match r with
    | .callFailure => ⟨s, true, true⟩
    | .parseFailure => ⟨s, true, true⟩
    | .parsed j => ⟨{ s with analysis := some j, step := 2 }, true, false⟩

/-- `handleGenerateDraft` (both variants): no guard; on success
`const data = JSON.parse(response.text || '{}'); setResumeDraft(
data.resumeMarkdown); setCritiques(data.critiques); setStep(3);` (property
accesses yield `undefined`, i.e. `none`, when missing), and on any caught
error `alert('Generation failed.');`. -/
def handleGenerateDraft (s : AppState) (r : StructuredResponse) : Outcome :=
  match r with
  | .callFailure => ⟨s, true, true⟩
  | .parseFailure => ⟨s, true, true⟩
  | .parsed j =>
      ⟨{ s with resumeDraft := lookupField j "resumeMarkdown",
                critiques := lookupField j "critiques",
                step := 3 }, true, false⟩

/-- `handleFinalPolish` (both variants): the `additionalInfo` argument enters
only the prompt; on success `setFinalResume(response.text || ''); setStep(4);`,
and on a caught error only `console.error(e);` — no `alert` in this catch
block. -/
def handleFinalPolish (s : AppState) (r : TextResponse) : Outcome :=
  match r with
  | .failure => ⟨s, true, false⟩
  | .success t => ⟨{ s with finalResume := t, step := 4 }, true, false⟩

/-- The restart button (`Create Another` in `index.tsx`, `Start Over` in the
unnamed variant): `setStep(0); setRawText(''); setJd('');
setExperienceDoc('');`. -/
def restart (s : AppState) : AppState :=
  { s with step := 0, rawText := "", jd := "", experienceDoc := "" }

/-- One segment of a speech-recognition result event:
`event.results[i][0].transcript` and `event.results[i].isFinal`. -/
structure RecogSeg where
  transcript : String
  isFinal : Bool

/-- The loop of the unnamed variant's `onresult` handler over
`event.results[resultIndex ..]`: accumulate `finalForThisBlock` from the
segments with `isFinal` and `currentInterim` from the rest, in order. -/
def splitSegs (ev : List RecogSeg) : String × String :=
  ev.foldl
    (fun acc seg =>
      if seg.isFinal then (acc.1 ++ seg.transcript, acc.2)
      else (acc.1, acc.2 ++ seg.transcript))
    ("", "")

/-- The unnamed variant's `onresult` handler: `if (finalForThisBlock)
setRawText(prev => prev + finalForThisBlock + ' ');
setInterimText(currentInterim);`. -/
def part000_onresult (s : AppState) (ev : List RecogSeg) : AppState :=
  let fi := splitSegs ev
  { s with
      rawText := if fi.1 = "" then s.rawText else s.rawText ++ fi.1 ++ " ",
      interimText := fi.2 }

/-- `index.tsx`'s `onresult` handler: `let transcript = ''; for (...)
transcript += event.results[i][0].transcript; setRawText(prev => prev + ' ' +
transcript);` — every segment of the event, final or not, is appended. -/
def index_onresult (rawText : String) (ev : List RecogSeg) : String :=
  rawText ++ " " ++ ev.foldl (fun t seg => t ++ seg.transcript) ""

/-- Processing of an ordered sequence of result events by the unnamed
variant's handler. -/
def runRecog (s : AppState) (evs : List (List RecogSeg)) : AppState :=
  evs.foldl part000_onresult s

/-- Specification function: the concatenation, in the order received, of the
transcripts of exactly the segments marked final in one event. -/
def finalsText : List RecogSeg → String
  | [] => ""
  | seg :: rest => (if seg.isFinal then seg.transcript else "") ++ finalsText rest

/-- Specification function: the concatenation, in the order received, of the
transcripts of exactly the segments not marked final in one event. -/
def interimsText : List RecogSeg → String
  | [] => ""
  | seg :: rest => (if seg.isFinal then "" else seg.transcript) ++ interimsText rest

/-- Specification function: the text the unnamed variant's handler commits for
a sequence of events — for each event, the concatenation of its final
segments in order, followed by one space when non-empty. -/
def committedText : List (List RecogSeg) → String
  | [] => ""
  | ev :: rest =>
      (if finalsText ev = "" then "" else finalsText ev ++ " ")
        ++ committedText rest

/-- The unnamed variant's `toggleRecording`: while recording, `stop();
setIsRecording(false); setInterimText('');`; otherwise `setInterimText('');
start(); setIsRecording(true);`. -/
def toggleRecording (s : AppState) : AppState :=
  if s.isRecording then { s with isRecording := false, interimText := "" }
  else { s with interimText := "", isRecording := true }

/-- `index.tsx`'s `toggleRecording`: `stop()` or `start()`, then
`setIsRecording(!isRecording)`; no other state is touched. -/
def indexToggleRecording (s : AppState) : AppState :=
  { s with isRecording := !s.isRecording }

/-- Schema the `handleFitCheck` call declares to the service
(`responseSchema`, required fields `score`, `dnaComparison`, `pros`, `cons`,
`conclusion`, `alternatives` with the listed types): a JSON value is either
a string or not. -/
def isJStr : Json → Bool
  | .jstr _ => true
  | _ => false

/-- Schema helper: a JSON number. -/
def isJNum : Json → Bool
  | .jnum _ => true
  | _ => false

/-- Schema helper: an array of strings. -/
def isStrArr : Json → Bool
  | .jarr xs => xs.all isJStr
  | _ => false

/-- Schema helper: one `dnaComparison` row, an object with required string
fields `dna` and `jd`. -/
def isDnaRow (j : Json) : Bool :=
  (lookupField j "dna").any isJStr && (lookupField j "jd").any isJStr

/-- Schema helper: the `dnaComparison` array. -/
def isDnaArr : Json → Bool
  | .jarr xs => xs.all isDnaRow
  | _ => false

/-- A parsed fit-check response is valid for the declared `responseSchema`
when all six required fields are present with their declared types. -/
def validAnalysis (j : Json) : Bool :=
  (lookupField j "score").any isJNum &&
  (lookupField j "dnaComparison").any isDnaArr &&
  (lookupField j "pros").any isStrArr &&
  (lookupField j "cons").any isStrArr &&
  (lookupField j "conclusion").any isJStr &&
  (lookupField j "alternatives").any isStrArr

/-- Blocks of the Fit Check Result screen (step 2) in render order. -/
inductive RenderBlock where
  | scorePanel (score : Option Json) (conclusion : Option Json)
  | dnaTable (rows : Option Json)
  | prosPanel (pros : Option Json)
  | consPanel (cons : Option Json)
  | alternativesPanel (alts : Option Json)

/-- JavaScript comparison `v < n` for a property that may be missing:
`undefined < n` is `false`; a number compares numerically.  (The declared
schema makes `score` a number; non-numeric values do not occur under it.) -/
def jsNumLt (v : Option Json) (n : Rat) : Bool :=
  match v with
  | some (.jnum q) => decide (q < n)
  | _ => false

/-- The step-2 JSX of both variants: score panel, DNA table, pros, cons, and
`{analysis.score < 60 && (...alternatives...)}`. -/
def renderFitResult (a : Json) : List RenderBlock :=
  [ .scorePanel (lookupField a "score") (lookupField a "conclusion"),
    .dnaTable (lookupField a "dnaComparison"),
    .prosPanel (lookupField a "pros"),
    .consPanel (lookupField a "cons") ]
  ++ (if jsNumLt (lookupField a "score") 60
      then [.alternativesPanel (lookupField a "alternatives")] else [])

/-- The surrounding gate `{step === 2 && analysis && (...)}`. -/
def renderStep2 (s : AppState) : List RenderBlock :=
  if s.step = 2 then
    match s.analysis with
    | some a => renderFitResult a
    | none => []
  else []

/-- A concrete session state on the Fit Check input step (step 1), reached
after a successful extraction and a pasted job description. -/
def fitInputState : AppState :=
  { step := 1, rawText := "Built a checkout flow, used React, cut load time 30%",
    interimText := "", isRecording := false,
    experienceDoc := "Frontend engineer. Built a checkout flow in React; cut load time by 30%.",
    jd := "Senior frontend engineer, React, performance focus",
    analysis := none, resumeDraft := some (.jstr ""),
    critiques := some (.jarr []), finalResume := "" }

/-- A concrete fit analysis with score 42 (below 60) and some alternatives. -/
def lowScoreAnalysis : Json :=
  .jobj [("score", .jnum 42),
         ("dnaComparison", .jarr [.jobj [("dna", .jstr "React"), ("jd", .jstr "React")]]),
         ("pros", .jarr [.jstr "React experience"]),
         ("cons", .jarr [.jstr "No leadership record"]),
         ("conclusion", .jstr "Pivot needed"),
         ("alternatives", .jarr [.jstr "UI engineer"])]

/-- A concrete session state on the Draft step (step 3), after a successful
draft generation. -/
def draftState : AppState :=
  { step := 3, rawText := "Built a checkout flow, used React, cut load time 30%",
    interimText := "", isRecording := false,
    experienceDoc := "Frontend engineer. Built a checkout flow in React; cut load time by 30%.",
    jd := "Senior frontend engineer, React, performance focus",
    analysis := some lowScoreAnalysis,
    resumeDraft := some (.jstr "## Resume draft"),
    critiques := some (.jarr [.jobj [("level", .jstr "minor"),
                                     ("text", .jstr "Too long"),
                                     ("suggestion", .jstr "Cut a section")]]),
    finalResume := "" }

/-- A concrete session state while recording, with some committed text. -/
def recordingState : AppState :=
  { initialState with rawText := "I shipped a payments service ",
                      isRecording := true, interimText := "and al" }

/-- A concrete session state on the Brainstorm step with a non-empty raw
input (the example input of the specification). -/
def brainstormState : AppState :=
  { initialState with
      rawText := "Built a checkout flow, used React, cut load time 30%" }

/-- A concrete session state on the Brainstorm step whose raw input is
whitespace only. -/
def blankState : AppState :=
  { initialState with rawText := "   " }

/-- A concrete session state on the Fit Check Result step holding the
score-42 analysis. -/
def lowScoreState : AppState :=
  { fitInputState with step := 2, analysis := some lowScoreAnalysis }

/-- Auxiliary: `splitSegs` on a whole event splits into the concatenation of
the final transcripts and the concatenation of the rest, via the loop's
accumulator. -/
theorem splitSegs_foldl (ev : List RecogSeg) (a b : String) :
    ev.foldl
        (fun acc seg =>
          if seg.isFinal then (acc.1 ++ seg.transcript, acc.2)
          else (acc.1, acc.2 ++ seg.transcript))
        (a, b)
      = (a ++ (splitSegs ev).1, b ++ (splitSegs ev).2) := by
  induction ev generalizing a b with
  | nil => simp [splitSegs, String.append_empty]
  | cons seg rest ih =>
      simp only [splitSegs, List.foldl_cons]
      cases hf : seg.isFinal
      · simp only [hf, Bool.false_eq_true, if_false]
        rw [ih a (b ++ seg.transcript), ih "" ("" ++ seg.transcript)]
        simp [String.append_assoc, String.empty_append]
      · simp only [hf, if_true]
        rw [ih (a ++ seg.transcript) b, ih ("" ++ seg.transcript) ""]
        simp [String.append_assoc, String.empty_append, String.append_empty]

/-- Auxiliary: the loop's two accumulators are exactly the in-order
concatenations of the final and the non-final transcripts of the event. -/
theorem splitSegs_eq (ev : List RecogSeg) :
    splitSegs ev = (finalsText ev, interimsText ev) := by
  induction ev with
  | nil => rfl
  | cons seg rest ih =>
      have h : splitSegs (seg :: rest)
          = (seg :: rest).foldl
              (fun acc g =>
                if g.isFinal then (acc.1 ++ g.transcript, acc.2)
                else (acc.1, acc.2 ++ g.transcript))
              ("", "") := rfl
      rw [h, List.foldl_cons]
      cases hf : seg.isFinal
      · simp only [hf, Bool.false_eq_true, if_false]
        rw [splitSegs_foldl, ih]
        simp [finalsText, interimsText, hf, String.empty_append]
      · simp only [hf, if_true]
        rw [splitSegs_foldl, ih]
        simp [finalsText, interimsText, hf, String.empty_append,
              String.append_empty]

/-- C3 (theorem for the amended claim): for the unnamed variant's `onresult`
handler, over every ordered sequence of result events, the raw-input
accumulator grows by exactly the final segments of each event — each final
transcript appended exactly once, in the order received, one space after each
event's non-empty final block — and the non-final segments of an event go
only to the displayed interim buffer, never to the raw input. -/
theorem part000_recog_commits_only_finals :
    (∀ (s : AppState) (evs : List (List RecogSeg)),
        (runRecog s evs).rawText = s.rawText ++ committedText evs) ∧
    (∀ (s : AppState) (ev : List RecogSeg),
        (part000_onresult s ev).interimText = interimsText ev) := by
  constructor
  · intro s evs
    induction evs generalizing s with
    | nil => simp [runRecog, committedText, String.append_empty]
    | cons ev rest ih =>
        have h : runRecog s (ev :: rest)
            = runRecog (part000_onresult s ev) rest := rfl
        rw [h, ih]
        by_cases hF : finalsText ev = ""
        · simp [part000_onresult, committedText, splitSegs_eq, hF,
                String.empty_append]
        · simp [part000_onresult, committedText, splitSegs_eq, hF,
                String.append_assoc]
  · intro s ev
    simp [part000_onresult, splitSegs_eq]

/-- C3 (counterexample to the claim as stated): `index.tsx`'s `onresult`
handler commits a segment that is not marked final — one event carrying the
single non-final segment `hello` turns an empty raw input into `" hello"` —
while the unnamed variant's handler leaves the raw input unchanged on the
same event and only displays `hello` in the interim buffer. -/
theorem index_onresult_commits_nonfinal :
    index_onresult "" [⟨"hello", false⟩] = " hello" ∧
    (part000_onresult recordingState [⟨"hello", false⟩]).rawText
        = recordingState.rawText ∧
    (part000_onresult recordingState [⟨"hello", false⟩]).interimText
        = "hello" := by
  refine ⟨rfl, rfl, rfl⟩

/-- C8: stopping a recording session (`toggleRecording` while
`isRecording`) leaves the raw-input accumulator unchanged, clears the pending
interim (partly recognized) segment instead of committing it, and ends the
recording; `index.tsx`'s `toggleRecording` also leaves the raw input
unchanged. -/
theorem stop_discards_interim (s : AppState) (hrec : s.isRecording = true) :
    (toggleRecording s).rawText = s.rawText ∧
    (toggleRecording s).interimText = "" ∧
    (toggleRecording s).isRecording = false ∧
    (indexToggleRecording s).rawText = s.rawText := by
  simp [toggleRecording, indexToggleRecording, hrec]

/-- C8 (witness): the stop action at the concrete recording state with the
pending interim segment `and al`. -/
theorem stop_discards_interim_witness :
    (toggleRecording recordingState).rawText = recordingState.rawText ∧
    (toggleRecording recordingState).interimText = "" ∧
    (toggleRecording recordingState).isRecording = false ∧
    (indexToggleRecording recordingState).rawText = recordingState.rawText :=
  stop_discards_interim recordingState rfl

/-- C1 (counterexample to the claim as stated): the parseable fit-check
response `{}` is missing every required field, yet `handleFitCheck` stores it
as the analysis and advances from step 1 to step 2 with no alert — the
controller does not remain on the pre-call step and no visible error is
raised (only "not populated with a valid value" holds: the stored object
fails the declared schema). -/
theorem fitCheck_missing_field_advances :
    (handleFitCheck fitInputState (.parsed (.jobj []))).state.step = 2 ∧
    (handleFitCheck fitInputState (.parsed (.jobj []))).state.analysis
        = some (.jobj []) ∧
    validAnalysis (.jobj []) = false ∧
    (handleFitCheck fitInputState (.parsed (.jobj []))).alerted = false := by
  refine ⟨rfl, rfl, rfl, rfl⟩

/-- C1 (theorem for the amended claim): with a non-empty job description and
the controller on step 1, a Compute Fit call failure or a non-parseable
response leaves the state (hence step 1 and the unset analysis) unchanged and
raises the blocking alert, while any parseable response — including one
missing required fields — is stored unvalidated as the analysis and advances
the controller to step 2 with no error. -/
theorem fitCheck_error_behavior (s : AppState) (r : StructuredResponse)
    (hjd : jsTrim s.jd ≠ "") (hstep : s.step = 1) :
    ((r = .callFailure ∨ r = .parseFailure) →
        (handleFitCheck s r).state = s ∧
        (handleFitCheck s r).state.step = 1 ∧
        (handleFitCheck s r).alerted = true) ∧
    (∀ j, r = .parsed j →
        (handleFitCheck s r).state.step = 2 ∧
        (handleFitCheck s r).state.analysis = some j ∧
        (handleFitCheck s r).alerted = false) := by
  constructor
  · rintro (rfl | rfl) <;> simp [handleFitCheck, hjd, hstep]
  · rintro j rfl
    simp [handleFitCheck, hjd]

/-- C1 (witness): the amended behavior at the concrete step-1 state, for a
non-parseable response. -/
theorem fitCheck_error_behavior_witness :
    (handleFitCheck fitInputState .parseFailure).state = fitInputState ∧
    (handleFitCheck fitInputState .parseFailure).state.step = 1 ∧
    (handleFitCheck fitInputState .parseFailure).alerted = true :=
  (fitCheck_error_behavior fitInputState .parseFailure (by decide) rfl).1
    (Or.inr rfl)

/-- C2 (counterexample to the claim as stated): a failure of the Polish
call's external generation is caught and leaves the state unchanged, but no
blocking notification is raised — the catch block of `handleFinalPolish` only
logs. -/
theorem polish_failure_silent :
    (handleFinalPolish draftState .failure).state = draftState ∧
    (handleFinalPolish draftState .failure).alerted = false :=
  ⟨rfl, rfl⟩

/-- C2 (theorem for the amended claim): every external-call failure of the
four operations is caught at the call site, leaving the step index and every
accumulated artifact exactly as before the call; Extract Experience, Compute
Fit and Draft Resume failures raise the blocking alert, but a Polish failure
is only logged and shows no notification. -/
theorem failure_preserves_state (s : AppState)
    (hraw : jsTrim s.rawText ≠ "") (hjd : jsTrim s.jd ≠ "") :
    (handleProcessBrainstorm s .failure).state = s ∧
    (handleProcessBrainstorm s .failure).alerted = true ∧
    (handleFitCheck s .callFailure).state = s ∧
    (handleFitCheck s .callFailure).alerted = true ∧
    (handleFitCheck s .parseFailure).state = s ∧
    (handleFitCheck s .parseFailure).alerted = true ∧
    (handleGenerateDraft s .callFailure).state = s ∧
    (handleGenerateDraft s .callFailure).alerted = true ∧
    (handleGenerateDraft s .parseFailure).state = s ∧
    (handleGenerateDraft s .parseFailure).alerted = true ∧
    (handleFinalPolish s .failure).state = s ∧
    (handleFinalPolish s .failure).alerted = false := by
  simp [handleProcessBrainstorm, handleFitCheck, handleGenerateDraft,
        handleFinalPolish, hraw, hjd]

/-- C2 (witness): the amended behavior at the concrete step-1 state, whose
raw input and job description are non-empty. -/
theorem failure_preserves_state_witness :
    (handleProcessBrainstorm fitInputState .failure).state = fitInputState ∧
    (handleProcessBrainstorm fitInputState .failure).alerted = true ∧
    (handleFitCheck fitInputState .callFailure).state = fitInputState ∧
    (handleFitCheck fitInputState .callFailure).alerted = true ∧
    (handleFitCheck fitInputState .parseFailure).state = fitInputState ∧
    (handleFitCheck fitInputState .parseFailure).alerted = true ∧
    (handleGenerateDraft fitInputState .callFailure).state = fitInputState ∧
    (handleGenerateDraft fitInputState .callFailure).alerted = true ∧
    (handleGenerateDraft fitInputState .parseFailure).state = fitInputState ∧
    (handleGenerateDraft fitInputState .parseFailure).alerted = true ∧
    (handleFinalPolish fitInputState .failure).state = fitInputState ∧
    (handleFinalPolish fitInputState .failure).alerted = false :=
  failure_preserves_state fitInputState (by decide) (by decide)

/-- C4 (counterexample to the claim as stated): a successful Polish invoked
from the Draft step (index 3) moves the controller to step 4 — invoking
Polish by itself does transition the controller away from the Draft step. -/
theorem polish_success_advances :
    draftState.step = 3 ∧
    (handleFinalPolish draftState (.success "polished resume")).state.step
        = 4 ∧
    (handleFinalPolish draftState (.success "polished resume")).state.step
        ≠ 3 := by
  refine ⟨rfl, rfl, by decide⟩

/-- C4 (theorem for the amended claim): Polish may be invoked repeatedly with
different correction texts (the correction enters only the prompt, never the
state); a failed Polish leaves the controller on the Draft step (index 3)
with the state unchanged, but every successful Polish transitions the
controller to the Final step (index 4), storing the response as the Final
Resume and leaving the draft itself unchanged — returning to the Draft step
takes an explicit user back-navigation, not the Polish call. -/
theorem polish_transitions (s : AppState) (t : String) (hstep : s.step = 3) :
    (handleFinalPolish s .failure).state.step = 3 ∧
    (handleFinalPolish s .failure).state = s ∧
    (handleFinalPolish s (.success t)).state.step = 4 ∧
    (handleFinalPolish s (.success t)).state.finalResume = t ∧
    (handleFinalPolish s (.success t)).state.resumeDraft = s.resumeDraft := by
  simp [handleFinalPolish, hstep]

/-- C4 (witness): the amended behavior at the concrete Draft-step state. -/
theorem polish_transitions_witness :
    (handleFinalPolish draftState .failure).state.step = 3 ∧
    (handleFinalPolish draftState .failure).state = draftState ∧
    (handleFinalPolish draftState (.success "polished resume")).state.step
        = 4 ∧
    (handleFinalPolish draftState
        (.success "polished resume")).state.finalResume = "polished resume" ∧
    (handleFinalPolish draftState
        (.success "polished resume")).state.resumeDraft
        = draftState.resumeDraft :=
  polish_transitions draftState "polished resume" rfl

/-- C5: from the Brainstorm step with a non-empty raw input and the later
artifacts still unset, a successful Extract Experience stores the returned
document, advances the step index by exactly one (0 to 1), and leaves the
Job Description, Fit Analysis, Resume Draft, critiques and Final Resume at
their unset initial values. -/
theorem extract_advances_one_step (s : AppState) (doc : String)
    (hstep : s.step = 0) (hraw : jsTrim s.rawText ≠ "")
    (hjd : s.jd = "") (han : s.analysis = none)
    (hdr : s.resumeDraft = some (.jstr "")) (hcr : s.critiques = some (.jarr []))
    (hfr : s.finalResume = "") :
    (handleProcessBrainstorm s (.success doc)).state.step = s.step + 1 ∧
    (handleProcessBrainstorm s (.success doc)).state.experienceDoc = doc ∧
    (handleProcessBrainstorm s (.success doc)).state.jd = "" ∧
    (handleProcessBrainstorm s (.success doc)).state.analysis = none ∧
    (handleProcessBrainstorm s (.success doc)).state.resumeDraft
        = some (.jstr "") ∧
    (handleProcessBrainstorm s (.success doc)).state.critiques
        = some (.jarr []) ∧
    (handleProcessBrainstorm s (.success doc)).state.finalResume = "" := by
  simp [handleProcessBrainstorm, hstep, hraw, hjd, han, hdr, hcr, hfr]

/-- C5 (witness): the extraction at the specification's example raw input
with a concrete mock response. -/
theorem extract_advances_one_step_witness :
    (handleProcessBrainstorm brainstormState
        (.success "Frontend: checkout flow, React, -30% load time")).state.step
        = brainstormState.step + 1 ∧
    (handleProcessBrainstorm brainstormState
        (.success "Frontend: checkout flow, React, -30% load time")).state.experienceDoc
        = "Frontend: checkout flow, React, -30% load time" ∧
    (handleProcessBrainstorm brainstormState
        (.success "Frontend: checkout flow, React, -30% load time")).state.jd = "" ∧
    (handleProcessBrainstorm brainstormState
        (.success "Frontend: checkout flow, React, -30% load time")).state.analysis
        = none ∧
    (handleProcessBrainstorm brainstormState
        (.success "Frontend: checkout flow, React, -30% load time")).state.resumeDraft
        = some (.jstr "") ∧
    (handleProcessBrainstorm brainstormState
        (.success "Frontend: checkout flow, React, -30% load time")).state.critiques
        = some (.jarr []) ∧
    (handleProcessBrainstorm brainstormState
        (.success "Frontend: checkout flow, React, -30% load time")).state.finalResume
        = "" :=
  extract_advances_one_step brainstormState
    "Frontend: checkout flow, React, -30% load time"
    rfl (by decide) rfl rfl rfl rfl rfl

/-- C6: the restart action resets the raw input, the job description and the
experience document to empty and returns the step index to 0, for every
session state. -/
theorem restart_resets (s : AppState) :
    (restart s).rawText = "" ∧ (restart s).jd = "" ∧
    (restart s).experienceDoc = "" ∧ (restart s).step = 0 := by
  simp [restart]

/-- C7: with a raw input that is empty or whitespace only, Extract Experience
is a no-op — no generation call is issued, no alert is raised, and the state
(in particular a step index of 0) is returned unchanged. -/
theorem blank_input_noop (s : AppState) (r : TextResponse)
    (hraw : jsTrim s.rawText = "") (hstep : s.step = 0) :
    handleProcessBrainstorm s r = ⟨s, false, false⟩ ∧
    (handleProcessBrainstorm s r).called = false ∧
    (handleProcessBrainstorm s r).alerted = false ∧
    (handleProcessBrainstorm s r).state.step = 0 := by
  simp [handleProcessBrainstorm, hraw, hstep]

/-- C7 (witness): the no-op at the concrete whitespace-only state, even when
the would-be call would fail. -/
theorem blank_input_noop_witness :
    handleProcessBrainstorm blankState .failure = ⟨blankState, false, false⟩ ∧
    (handleProcessBrainstorm blankState .failure).called = false ∧
    (handleProcessBrainstorm blankState .failure).alerted = false ∧
    (handleProcessBrainstorm blankState .failure).state.step = 0 :=
  blank_input_noop blankState .failure (by decide) rfl

/-- C9: the restart action leaves the Fit Analysis, the Resume Draft, the
critique list and the Final Resume unchanged — artifacts of the previous
session survive into the new one. -/
theorem restart_preserves_later_artifacts (s : AppState) :
    (restart s).analysis = s.analysis ∧
    (restart s).resumeDraft = s.resumeDraft ∧
    (restart s).critiques = s.critiques ∧
    (restart s).finalResume = s.finalResume := by
  simp [restart]

/-- C10: on the Fit Check Result step (step index 2 with an analysis
present), the alternative-role suggestions block is rendered if and only if
the analysis score is strictly less than 60; for a score of 60 or above no
alternatives block appears, whatever the alternatives list holds. -/
theorem alternatives_iff_score_lt_60 (s : AppState) (a : Json) (q : Rat)
    (hstep : s.step = 2) (ha : s.analysis = some a)
    (hscore : lookupField a "score" = some (.jnum q)) :
    (∃ alts, RenderBlock.alternativesPanel alts ∈ renderStep2 s) ↔ q < 60 := by
  by_cases hq : q < 60 <;>
    simp [renderStep2, renderFitResult, jsNumLt, hstep, ha, hscore, hq]

/-- C10 (witness): at the concrete result state with score 42, the
alternatives block is rendered. -/
theorem alternatives_iff_witness :
    ∃ alts, RenderBlock.alternativesPanel alts ∈ renderStep2 lowScoreState :=
  (alternatives_iff_score_lt_60 lowScoreState lowScoreAnalysis 42
      rfl rfl rfl).mpr (by norm_num)
